import Mathlib

/-!
Shallow embedding of the housing-search backend (`backend/server.js`) and the
frontend refinement logic (`frontend/src/App.jsx`).

Modelling conventions:
* JavaScript numbers that the code only compares, multiplies by 2, or tests for
  truthiness are modelled as `Int`; an absent (`undefined`/`null`) field is
  `none`.  A number is JS-truthy iff it is nonzero.
* JavaScript strings are `String`; a string is JS-truthy iff it is nonempty.
* Date-valued fields whose numeric value is compared (`terminatedDate`,
  `possessionDate`, `listDate`) are modelled as their parsed millisecond
  timestamps, `some t` iff the raw string field is truthy.  Fields only tested
  for truthiness (`conditionalExpiryDate`, `closedDate`) stay `Option String`.
* The server computes `now = new Date()`, `oneYearAgo` (calendar-field
  subtraction: same month/day, year-1) and `thirtyDaysFromNow` (calendar
  addition of 30 days) at the top of `filterProperties` and `getBargainTags`.
  These three derived instants are injected as a `Clock` record; no claim
  depends on the calendar arithmetic itself, only on how the predicates use
  the three values.
* The nested sub-records `details`, `timestamps` and `map` are flattened into
  the listing record; optional chaining `a?.b` then coincides with the
  flattened optional field.
-/

/-- JS truthiness of an optional number: present and nonzero. -/
def truthyN : Option Int → Bool
  | some n => n ≠ 0
  | none => false

/-- JS truthiness of an optional string: present and nonempty. -/
def truthyS : Option String → Bool
  | some s => s ≠ ""
  | none => false

/-- JS `a || b` on optional numbers: `b` when `a` is absent or zero. -/
def jsOrInt (a b : Option Int) : Option Int :=
  match a with
  | some n => if n ≠ 0 then some n else b
  | none => b

/-- JS `a || d` on an optional string with a string default. -/
def jsOrStr (a : Option String) (d : String) : String :=
  match a with
  | some s => if s ≠ "" then s else d
  | none => d

/-- JS `a || d` on an optional number with a numeric default. -/
def jsOrIntD (a : Option Int) (d : Int) : Int :=
  match a with
  | some n => if n ≠ 0 then n else d
  | none => d

/-- Numeric value of an optional number (only consulted under a truthiness
guard, mirroring JS short-circuit `&&`). -/
def numVal : Option Int → Int
  | some n => n
  | none => 0

/-- JS `s.toLowerCase()`, as a structural map over the characters. -/
def jsToLower (s : String) : String :=
  String.mk (s.data.map Char.toLower)

/-- One character-list occurs inside another (JS `String.includes`). -/
def substrAux (pat s : List Char) : Bool :=
  match s with
  | [] => pat.isEmpty
  | _ :: tail => pat.isPrefixOf s || substrAux pat tail

/-- JS `s.includes(pat)`. -/
def containsSubstr (s pat : String) : Bool :=
  substrAux pat.toList s.toList

/-- The `address` sub-record of a raw listing. -/
structure Address where
  streetNumber : Option String
  streetName : Option String
  streetSuffix : Option String
  unitNumber : Option String
  city : Option String
  state : Option String
  zip : Option String
deriving DecidableEq

/-- A raw listing from the upstream provider, restricted to the fields the
backend consumes.  `propertyType` and `description` flatten `details.*`;
`terminatedDate`, `possessionDate`, `conditionalExpiryDate`, `closedDate`
flatten `timestamps.*`; `latitude`, `longitude` flatten `map.*`. -/
structure RawListing where
  mlsNumber : Option String
  mls : Option String
  listPrice : Option Int
  price : Option Int
  originalPrice : Option Int
  soldPrice : Option Int
  simpleDaysOnMarket : Option Int
  listDate : Option Int
  propertyType : Option String
  type : Option String
  description : Option String
  images : List String
  address : Option Address
  terminatedDate : Option Int
  possessionDate : Option Int
  conditionalExpiryDate : Option String
  closedDate : Option String
  latitude : Option Int
  longitude : Option Int
deriving DecidableEq

/-- The three time values both `filterProperties` and `getBargainTags` derive
from `new Date()`: the current instant, the calendar-subtracted one-year-ago
instant, and the calendar-added thirty-days-from-now instant (milliseconds). -/
structure Clock where
  now : Int
  oneYearAgo : Int
  thirtyDaysFromNow : Int
deriving DecidableEq

/-- Milliseconds per day, the divisor `1000 * 60 * 60 * 24` in the source. -/
def msPerDay : Int := 1000 * 60 * 60 * 24

/-- Criterion 1 data: `simpleDaysOnMarket` when non-null, else the floored
day difference from `listDate`, else 0 (lines 133-135 / 189-191). -/
def daysOnMarket (c : Clock) (p : RawListing) : Int :=
  match p.simpleDaysOnMarket with
  | some d => d
  | none =>
    match p.listDate with
    | some ld => Int.fdiv (c.now - ld) msPerDay
    | none => 0

/-- Criterion 1: on the market for at least 60 days. -/
def onMarket2Months (c : Clock) (p : RawListing) : Bool :=
  daysOnMarket c p ≥ 60

/-- Criterion 2: a truthy `timestamps.terminatedDate` not older than
`oneYearAgo`. -/
def hasTerminatedListing (c : Clock) (p : RawListing) : Bool :=
  match p.terminatedDate with
  | some td => td ≥ c.oneYearAgo
  | none => false

/-- Criterion 3: with `originalPrice = property.originalPrice ||
property.soldPrice`, require all of `originalPrice`, `listPrice`,
`listPrice > 0`, `listPrice < originalPrice` (line 147-148). -/
def priceBelowPurchase (p : RawListing) : Bool :=
  let originalPrice := jsOrInt p.originalPrice p.soldPrice
  truthyN originalPrice && truthyN p.listPrice &&
    numVal p.listPrice > 0 && numVal p.listPrice < numVal originalPrice

/-- Criterion 4: same guards, `listPrice >= originalPrice * 2` (line 153). -/
def priceDoublePurchase (p : RawListing) : Bool :=
  let originalPrice := jsOrInt p.originalPrice p.soldPrice
  truthyN originalPrice && truthyN p.listPrice &&
    numVal p.listPrice > 0 && numVal p.listPrice ≥ numVal originalPrice * 2

/-- Criterion 5: truthy `possessionDate` between `now` and
`thirtyDaysFromNow` inclusive (line 161). -/
def quickClose (c : Clock) (p : RawListing) : Bool :=
  match p.possessionDate with
  | some pd => pd ≤ c.thirtyDaysFromNow && pd ≥ c.now
  | none => false

/-- Criterion 6: truthy `conditionalExpiryDate` and falsy `closedDate`
(line 168). -/
def dealFellThrough (p : RawListing) : Bool :=
  truthyS p.conditionalExpiryDate && !truthyS p.closedDate

/-- Criterion 7: the defaulted, lowercased description contains
`"estate"` (lines 173-174). -/
def isEstateSale (p : RawListing) : Bool :=
  containsSubstr (jsToLower (jsOrStr p.description "")) "estate"

/-- `getBargainTags` (lines 126-179): push each satisfied criterion's label
in source order 1..7.  The source recomputes every criterion inline with the
same expressions used in `filterProperties`; the shared definitions above are
those expressions, written once. -/
def getBargainTags (c : Clock) (p : RawListing) : List String :=
  (if onMarket2Months c p then ["long time no sold"] else []) ++
  (if hasTerminatedListing c p then ["reposted"] else []) ++
  (if priceBelowPurchase p then ["selling at a loss"] else []) ++
  (if priceDoublePurchase p then ["selling at huge profit"] else []) ++
  (if quickClose c p then ["quicky"] else []) ++
  (if dealFellThrough p then ["last deal fell through"] else []) ++
  (if isEstateSale p then ["estate sell"] else [])

/-- `filterProperties` (lines 182-226): keep a listing iff the disjunction of
the seven criteria holds. -/
def filterProperties (c : Clock) (properties : List RawListing) : List RawListing :=
  properties.filter (fun property =>
    onMarket2Months c property || hasTerminatedListing c property ||
    priceBelowPurchase property || priceDoublePurchase property ||
    quickClose c property || dealFellThrough property || isEstateSale property)

/-- `filterFixerProperties` (lines 229-234). -/
def filterFixerProperties (properties : List RawListing) : List RawListing :=
  properties.filter (fun property =>
    containsSubstr (jsToLower (jsOrStr property.description "")) "sold as is")

/-- `filterSchoolProperties` (lines 259-274): placeholder returning
`lat && lon` (JS truthiness of both coordinates). -/
def filterSchoolProperties (properties : List RawListing) : List RawListing :=
  properties.filter (fun property =>
    truthyN property.latitude && truthyN property.longitude)

/-- `filterSubwayProperties` (lines 280-301): same placeholder body. -/
def filterSubwayProperties (properties : List RawListing) : List RawListing :=
  properties.filter (fun property =>
    truthyN property.latitude && truthyN property.longitude)

/-- JS `Array.prototype.join(sep)`: empty string on an empty list, else the
elements interleaved with the separator (structural, so it evaluates). -/
def joinSep (sep : String) : List String → String
  | [] => ""
  | [x] => x
  | x :: rest => x ++ sep ++ joinSep sep rest

/-- `formatAddress` (lines 104-123), translated push-by-push. -/
def formatAddress (property : RawListing) : String :=
  match property.address with
  | none => "Address not available"
  | some addr =>
    let streetParts : List String :=
      (if truthyS addr.streetNumber then [jsOrStr addr.streetNumber ""] else []) ++
      (if truthyS addr.streetName then [jsOrStr addr.streetName ""] else []) ++
      (if truthyS addr.streetSuffix then [jsOrStr addr.streetSuffix ""] else []) ++
      (if truthyS addr.unitNumber then ["Unit " ++ jsOrStr addr.unitNumber ""] else [])
    let streetAddress := joinSep " " streetParts
    let addressParts : List String :=
      (if streetAddress ≠ "" then [streetAddress] else []) ++
      (if truthyS addr.city then [jsOrStr addr.city ""] else []) ++
      (if truthyS addr.state then [jsOrStr addr.state ""] else []) ++
      (if truthyS addr.zip then [jsOrStr addr.zip ""] else [])
    let joined := joinSep ", " addressParts
    if joined ≠ "" then joined else "Address not available"

/-- One record of the `formattedProperties` map (lines 79-90). -/
structure FormattedProperty where
  mlsNumber : String
  address : String
  askingPrice : Int
  propertyType : String
  thumbnail : String
  realtorCaLink : String
  tags : List String
deriving DecidableEq

/-- The per-listing body of the `formattedProperties` map (lines 79-90):
tags only for the `bargain` search type, every other field defaulted with
JS `||` chains. -/
def formatProperty (c : Clock) (searchType : String) (property : RawListing) :
    FormattedProperty :=
  { mlsNumber := jsOrStr property.mlsNumber (jsOrStr property.mls "")
    address := formatAddress property
    askingPrice := jsOrIntD property.listPrice (jsOrIntD property.price 0)
    propertyType := jsOrStr property.propertyType (jsOrStr property.type "Unknown")
    thumbnail := jsOrStr property.images.head? ""
    realtorCaLink := "https://www.realtor.ca/real-estate/" ++
      jsOrStr property.mlsNumber (jsOrStr property.mls "")
    tags := if searchType = "bargain" then getBargainTags c property else [] }

/-- Upstream JSON body: an object carrying optional `listings`, `results` and
`data` keys (`none` models an absent or falsy key), or a bare array. -/
inductive ApiResponse where
  | obj (listings results data : Option (List RawListing))
  | arr (xs : List RawListing)
deriving DecidableEq

/-- Line 54: `data.listings || data.results || data.data ||
(Array.isArray(data) ? data : [])`.  JS arrays are truthy even when empty, so
a present key wins outright; on a bare array the three property reads are
`undefined` and the `Array.isArray` branch returns the array itself. -/
def extractListings : ApiResponse → List RawListing
  | .obj listings results data =>
    match listings with
    | some xs => xs
    | none =>
      match results with
      | some xs => xs
      | none =>
        match data with
        | some xs => xs
        | none => []
  | .arr xs => xs

/-- Outcome of the upstream `fetch`: a success body or a non-success HTTP
response with its status and body text. -/
inductive UpstreamResult where
  | ok (data : ApiResponse)
  | httpError (status : Nat) (bodyText : String)
deriving DecidableEq

/-- JSON body of the endpoint's reply: `{ properties }` or `{ error }`. -/
inductive ResponseBody where
  | success (properties : List FormattedProperty)
  | failure (error : String)
deriving DecidableEq

/-- What one `GET /api/properties` request produces: the HTTP status, the
body, and whether the upstream provider was contacted. -/
structure HandlerOutcome where
  status : Nat
  body : ResponseBody
  upstreamCalled : Bool
deriving DecidableEq

/-- The `/api/properties` handler (lines 25-101) with its effects made
explicit: the configured key (`none` = unset env var), the requested search
type (after the `req.query.type || 'bargain'` default), the clock snapshot,
and the upstream provider's behaviour.  A missing or empty key returns the
config error before any fetch; a non-ok fetch throws, and the catch block
replies 500 with the thrown message. -/
def handleProperties (apiKey : Option String) (searchType : String)
    (c : Clock) (upstream : UpstreamResult) : HandlerOutcome :=
  if !truthyS apiKey then
    { status := 500
      body := .failure
        "Repliers API key not configured. Please set REPLIERS_API_KEY in .env file"
      upstreamCalled := false }
  else
    match upstream with
    | .httpError st txt =>
      { status := 500
        body := .failure ("Repliers API error: " ++ toString st ++ " - " ++ txt)
        upstreamCalled := true }
    | .ok data =>
      let listings := extractListings data
      let filteredProperties :=
        match searchType with
        | "fixer" => filterFixerProperties listings
        | "school" => filterSchoolProperties listings
        | "subway" => filterSubwayProperties listings
        | _ => filterProperties c listings
      { status := 200
        body := .success (filteredProperties.map (formatProperty c searchType))
        upstreamCalled := true }

/-- `applyFilters` (App.jsx lines 44-72).  The numeric inputs come from
`<input type=number>` fields: `none` models the empty string (JS-falsy, filter
inactive) and `some n` a numeric entry parsed by `parseInt` (the string "0" is
truthy, so `some 0` is an active filter, as in the source). -/
def applyFilters (minPrice maxPrice : Option Int)
    (selectedPropertyType selectedTag : String)
    (properties : List FormattedProperty) : List FormattedProperty :=
  let filtered := properties
  let filtered :=
    match minPrice with
    | some min => filtered.filter (fun p =>
        decide (p.askingPrice = 0) || decide (p.askingPrice ≥ min))
    | none => filtered
  let filtered :=
    match maxPrice with
    | some max => filtered.filter (fun p =>
        decide (p.askingPrice = 0) || decide (p.askingPrice ≤ max))
    | none => filtered
  let filtered :=
    if selectedPropertyType ≠ "" then
      filtered.filter (fun p =>
        containsSubstr (jsToLower p.propertyType) (jsToLower selectedPropertyType))
    else filtered
  let filtered :=
    if selectedTag ≠ "" then
      filtered.filter (fun p =>
        p.tags.any (fun tag => containsSubstr (jsToLower tag) (jsToLower selectedTag)))
    else filtered
  filtered

/-- A raw listing with every field absent, for concrete instantiations. -/
def emptyRaw : RawListing :=
  { mlsNumber := none, mls := none, listPrice := none, price := none
    originalPrice := none, soldPrice := none, simpleDaysOnMarket := none
    listDate := none, propertyType := none, type := none, description := none
    images := [], address := none, terminatedDate := none
    possessionDate := none, conditionalExpiryDate := none, closedDate := none
    latitude := none, longitude := none }

/-- A concrete clock snapshot for witnesses and counterexamples. -/
def clock0 : Clock :=
  { now := 1700000000000, oneYearAgo := 1668464000000
    thirtyDaysFromNow := 1702592000000 }

/-- The seven tag labels in source order 1..7. -/
def bargainTagLabels : List String :=
  ["long time no sold", "reposted", "selling at a loss",
   "selling at huge profit", "quicky", "last deal fell through", "estate sell"]

lemma truthyN_eq_true_iff (o : Option Int) :
    truthyN o = true ↔ ∃ n, o = some n ∧ n ≠ 0 := by
  rcases o with _ | n <;> simp [truthyN]

lemma truthyS_eq_true_iff (o : Option String) :
    truthyS o = true ↔ ∃ s, o = some s ∧ s ≠ "" := by
  rcases o with _ | s <;> simp [truthyS]

lemma mem_tagIf {b : Bool} {l x : String} :
    x ∈ (if b then [l] else ([] : List String)) ↔ (b = true ∧ x = l) := by
  cases b <;> simp

lemma mem_getBargainTags (c : Clock) (p : RawListing) (x : String) :
    x ∈ getBargainTags c p ↔
      (onMarket2Months c p = true ∧ x = "long time no sold") ∨
      (hasTerminatedListing c p = true ∧ x = "reposted") ∨
      (priceBelowPurchase p = true ∧ x = "selling at a loss") ∨
      (priceDoublePurchase p = true ∧ x = "selling at huge profit") ∨
      (quickClose c p = true ∧ x = "quicky") ∨
      (dealFellThrough p = true ∧ x = "last deal fell through") ∨
      (isEstateSale p = true ∧ x = "estate sell") := by
  simp [getBargainTags, List.mem_append, mem_tagIf]

lemma getBargainTags_ne_nil (c : Clock) (p : RawListing) :
    getBargainTags c p ≠ [] ↔
      (onMarket2Months c p || hasTerminatedListing c p || priceBelowPurchase p ||
       priceDoublePurchase p || quickClose c p || dealFellThrough p ||
       isEstateSale p) = true := by
  unfold getBargainTags
  cases h1 : onMarket2Months c p <;> cases h2 : hasTerminatedListing c p <;>
    cases h3 : priceBelowPurchase p <;> cases h4 : priceDoublePurchase p <;>
    cases h5 : quickClose c p <;> cases h6 : dealFellThrough p <;>
    cases h7 : isEstateSale p <;> simp

lemma tagIf_append_sublist {b : Bool} {l : String} {xs ys : List String}
    (h : List.Sublist xs ys) :
    List.Sublist ((if b then [l] else []) ++ xs) (l :: ys) := by
  cases b
  · simpa using h.cons l
  · simpa using h.cons₂ l

lemma getBargainTags_sublist (c : Clock) (p : RawListing) :
    List.Sublist (getBargainTags c p) bargainTagLabels := by
  have h7 : List.Sublist (if isEstateSale p then ["estate sell"] else []) ["estate sell"] := by
    cases h : isEstateSale p <;> simp
  unfold getBargainTags bargainTagLabels
  simp only [List.append_assoc]
  exact tagIf_append_sublist (tagIf_append_sublist (tagIf_append_sublist
    (tagIf_append_sublist (tagIf_append_sublist (tagIf_append_sublist h7)))))

/-- The end-to-end example from the spec: `{simpleDaysOnMarket: 65,
listPrice: 500000}`. -/
def sampleLongMarket : RawListing :=
  { emptyRaw with simpleDaysOnMarket := some 65, listPrice := some 500000 }

/-- C1: a listing appears in the output of `filterProperties` iff it is in
the input and the disjunction of the seven bargain criteria holds for it;
the disjunction holds iff `getBargainTags` is non-empty; hence every listing
in the bargain result set carries at least one tag.  Both functions are
evaluated against the same clock snapshot, as in the spec's injected-`now`
reading. -/
theorem bargain_filter_iff_tags (c : Clock) (props : List RawListing)
    (p : RawListing) :
    (p ∈ filterProperties c props ↔
      p ∈ props ∧
        (onMarket2Months c p || hasTerminatedListing c p ||
         priceBelowPurchase p || priceDoublePurchase p || quickClose c p ||
         dealFellThrough p || isEstateSale p) = true) ∧
    ((onMarket2Months c p || hasTerminatedListing c p || priceBelowPurchase p ||
      priceDoublePurchase p || quickClose c p || dealFellThrough p ||
      isEstateSale p) = true ↔ getBargainTags c p ≠ []) ∧
    (p ∈ filterProperties c props → getBargainTags c p ≠ []) := by
  have hmem : p ∈ filterProperties c props ↔
      p ∈ props ∧
        (onMarket2Months c p || hasTerminatedListing c p ||
         priceBelowPurchase p || priceDoublePurchase p || quickClose c p ||
         dealFellThrough p || isEstateSale p) = true := by
    simp [filterProperties, List.mem_filter]
  refine ⟨hmem, (getBargainTags_ne_nil c p).symm, fun hp => ?_⟩
  exact (getBargainTags_ne_nil c p).mpr (hmem.mp hp).2

/-- Witness for C1: the spec's end-to-end example listing is kept by the
filter and indeed carries a tag. -/
theorem bargain_filter_iff_tags_witness :
    getBargainTags clock0 sampleLongMarket ≠ [] :=
  (bargain_filter_iff_tags clock0 [sampleLongMarket] sampleLongMarket).2.2
    (by decide)

/-- C3: `getBargainTags` returns exactly the labels of the criteria that hold
(membership iff the corresponding predicate), without duplicates, as a
sublist of the fixed order 1..7. -/
theorem bargainTags_exact_ordered (c : Clock) (p : RawListing) :
    (∀ x : String, x ∈ getBargainTags c p ↔
      (onMarket2Months c p = true ∧ x = "long time no sold") ∨
      (hasTerminatedListing c p = true ∧ x = "reposted") ∨
      (priceBelowPurchase p = true ∧ x = "selling at a loss") ∨
      (priceDoublePurchase p = true ∧ x = "selling at huge profit") ∨
      (quickClose c p = true ∧ x = "quicky") ∨
      (dealFellThrough p = true ∧ x = "last deal fell through") ∨
      (isEstateSale p = true ∧ x = "estate sell")) ∧
    (getBargainTags c p).Nodup ∧
    List.Sublist (getBargainTags c p) bargainTagLabels := by
  refine ⟨mem_getBargainTags c p, ?_, getBargainTags_sublist c p⟩
  exact (getBargainTags_sublist c p).nodup (by decide)

/-- C5: the "long time no sold" tag is produced iff `daysOnMarket ≥ 60`,
where `daysOnMarket` is `simpleDaysOnMarket` whenever present (an explicit 0
included, never overridden by `listDate`), else the floored day difference
from `listDate`, else 0. -/
theorem longTimeNoSold_spec (c : Clock) (p : RawListing) :
    ("long time no sold" ∈ getBargainTags c p ↔ daysOnMarket c p ≥ 60) ∧
    (∀ d : Int, p.simpleDaysOnMarket = some d → daysOnMarket c p = d) ∧
    (p.simpleDaysOnMarket = some 0 → daysOnMarket c p = 0) ∧
    (∀ ld : Int, p.simpleDaysOnMarket = none → p.listDate = some ld →
      daysOnMarket c p = Int.fdiv (c.now - ld) msPerDay) ∧
    (p.simpleDaysOnMarket = none → p.listDate = none → daysOnMarket c p = 0) := by
  refine ⟨?_, ?_, ?_, ?_, ?_⟩
  · simp [mem_getBargainTags, onMarket2Months]
  · intro d hd; simp [daysOnMarket, hd]
  · intro h0; simp [daysOnMarket, h0]
  · intro ld h1 h2; simp [daysOnMarket, h1, h2]
  · intro h1 h2; simp [daysOnMarket, h1, h2]

/-- A listing whose `simpleDaysOnMarket` is explicitly 0 while a `listDate`
far in the past is also present. -/
def zeroDomListing : RawListing :=
  { emptyRaw with simpleDaysOnMarket := some 0, listDate := some 1000000000000 }

/-- Witness for C5: explicit `simpleDaysOnMarket = 0` wins over the
`listDate` computation. -/
theorem longTimeNoSold_spec_witness :
    daysOnMarket clock0 zeroDomListing = 0 :=
  (longTimeNoSold_spec clock0 zeroDomListing).2.2.1 rfl

/-- An envelope whose `listings` key holds an empty array while `results`
holds a non-empty one. -/
def envShadow : ApiResponse := .obj (some []) (some [emptyRaw]) none

/-- Counterexample for C2: under "first non-empty match wins" the extracted
list would be the non-empty `results` array, but JS arrays are truthy even
when empty, so the code's `||` chain keeps the empty `listings` array. -/
theorem extract_first_nonempty_counterexample :
    envShadow = .obj (some []) (some [emptyRaw]) none ∧
    extractListings envShadow = [] ∧
    extractListings envShadow ≠ [emptyRaw] := by decide

/-- C2 amended: the first PRESENT key among `listings`, `results`, `data`
wins (even when it holds an empty array); with none present a non-array
yields `[]` and a bare array yields itself; in particular identical content
under `results`, under `data`, or as a bare array extracts identically. -/
theorem extract_envelope_spec (xs : List RawListing)
    (r d : Option (List RawListing)) :
    extractListings (.obj (some xs) r d) = xs ∧
    extractListings (.obj none (some xs) d) = xs ∧
    extractListings (.obj none none (some xs)) = xs ∧
    extractListings (.obj none none none) = [] ∧
    extractListings (.arr xs) = xs ∧
    extractListings (.obj none (some xs) none) =
      extractListings (.obj none none (some xs)) ∧
    extractListings (.obj none none (some xs)) = extractListings (.arr xs) :=
  ⟨rfl, rfl, rfl, rfl, rfl, rfl, rfl⟩

/-- A listing with an explicit `originalPrice` of 0, a `soldPrice` of 100 and
a `listPrice` of 50. -/
def zeroOriginalListing : RawListing :=
  { emptyRaw with originalPrice := some 0, soldPrice := some 100,
                  listPrice := some 50 }

/-- Counterexample for C4: the claim computes `originalPrice` by nullish
coalescing (`originalPrice ?? soldPrice`), which here yields 0, so it
predicts no "selling at a loss" tag (50 < 0 fails) and a "selling at huge
profit" tag (50 ≥ 0 * 2).  The code uses truthy `||`, falls back to
`soldPrice = 100`, and emits exactly the "selling at a loss" tag. -/
theorem priceTags_nullish_counterexample :
    zeroOriginalListing.originalPrice = some 0 ∧
    zeroOriginalListing.soldPrice = some 100 ∧
    zeroOriginalListing.listPrice = some 50 ∧
    "selling at a loss" ∈ getBargainTags clock0 zeroOriginalListing ∧
    ¬((50 : Int) < 0) ∧
    (50 : Int) ≥ 0 * 2 ∧
    "selling at huge profit" ∉ getBargainTags clock0 zeroOriginalListing := by
  decide

/-- C4 amended: `originalPrice` is the truthy-`||` fallback `originalPrice ||
soldPrice` (an explicit 0 DOES fall back to `soldPrice`); given the fallback
value present and nonzero and `listPrice` present and positive, "selling at a
loss" is tagged iff `listPrice < originalPrice` and "selling at huge profit"
iff `listPrice ≥ originalPrice * 2` (doubling boundary inclusive); equality
of the two prices yields neither tag. -/
theorem priceTags_spec (c : Clock) (p : RawListing) (op lp : Int)
    (hop : jsOrInt p.originalPrice p.soldPrice = some op) (hop0 : op ≠ 0)
    (hlp : p.listPrice = some lp) (hlp0 : lp > 0) :
    (("selling at a loss" ∈ getBargainTags c p) ↔ lp < op) ∧
    (("selling at huge profit" ∈ getBargainTags c p) ↔ lp ≥ op * 2) ∧
    (lp = op → "selling at a loss" ∉ getBargainTags c p ∧
      "selling at huge profit" ∉ getBargainTags c p) := by
  have hlp' : lp ≠ 0 := by omega
  have hA : ("selling at a loss" ∈ getBargainTags c p) ↔ lp < op := by
    simp [mem_getBargainTags, priceBelowPurchase, hop, hlp, truthyN, numVal,
      hop0, hlp', hlp0]
  have hB : ("selling at a loss" ∈ getBargainTags c p) → lp < op := hA.mp
  have hC : ("selling at huge profit" ∈ getBargainTags c p) ↔ lp ≥ op * 2 := by
    simp [mem_getBargainTags, priceDoublePurchase, hop, hlp, truthyN, numVal,
      hop0, hlp', hlp0]
  refine ⟨hA, hC, fun he => ⟨fun hm => ?_, fun hm => ?_⟩⟩
  · have := hA.mp hm; omega
  · have := hC.mp hm; omega

/-- A listing bought at 100 and relisted at 50. -/
def lossListing : RawListing :=
  { emptyRaw with originalPrice := some 100, listPrice := some 50 }

/-- Witness for the amended C4: the 100-to-50 listing gets the loss tag. -/
theorem priceTags_spec_witness :
    "selling at a loss" ∈ getBargainTags clock0 lossListing :=
  ((priceTags_spec clock0 lossListing 100 50 (by decide) (by decide)
    (by decide) (by decide)).1).mpr (by decide)

/-- A listing at the equator: latitude exactly 0, longitude 30. -/
def equatorListing : RawListing :=
  { emptyRaw with latitude := some 0, longitude := some 30 }

/-- Counterexample for C6: the claim says a listing with both coordinates
present is passed through "including coordinate values equal to 0", but the
placeholder filters return `lat && lon`, and the JS number 0 is falsy, so a
zero latitude is excluded. -/
theorem school_zero_coordinate_counterexample :
    equatorListing.latitude = some 0 ∧
    equatorListing.longitude = some 30 ∧
    filterSchoolProperties [equatorListing] = [] ∧
    filterSubwayProperties [equatorListing] = [] ∧
    equatorListing ∉ filterSchoolProperties [equatorListing] := by decide

/-- C6 amended: the school and subway search types include a listing iff both
`map.latitude` and `map.longitude` are present AND nonzero (JS truthiness);
no distance, rating or walking-time computation affects inclusion, and the
two filters behave identically. -/
theorem school_subway_filter_spec (ps : List RawListing) (p : RawListing) :
    (p ∈ filterSchoolProperties ps ↔
      p ∈ ps ∧ (∃ lat, p.latitude = some lat ∧ lat ≠ 0) ∧
        (∃ lon, p.longitude = some lon ∧ lon ≠ 0)) ∧
    filterSubwayProperties ps = filterSchoolProperties ps := by
  refine ⟨?_, rfl⟩
  simp [filterSchoolProperties, List.mem_filter, ← truthyN_eq_true_iff,
    and_assoc]

/-- C7: with no API credential configured (unset or empty, both JS-falsy) the
endpoint replies with the configuration-error body and status 500, contacts
no upstream provider, and its reply is independent of the upstream behaviour;
with a credential configured, a non-success upstream response yields a 500
error reply whose message carries the upstream status and body text, and
never a (partial) success body. -/
theorem handleProperties_errors (key : Option String) (t : String) (c : Clock)
    (u u' : UpstreamResult) (st : Nat) (txt : String) :
    (truthyS key = false →
      handleProperties key t c u = handleProperties key t c u' ∧
      (handleProperties key t c u).upstreamCalled = false ∧
      (handleProperties key t c u).status = 500 ∧
      (handleProperties key t c u).body = .failure
        "Repliers API key not configured. Please set REPLIERS_API_KEY in .env file") ∧
    (truthyS key = true →
      handleProperties key t c (.httpError st txt) =
        { status := 500
          body := .failure ("Repliers API error: " ++ toString st ++ " - " ++ txt)
          upstreamCalled := true } ∧
      ∀ props, (handleProperties key t c (.httpError st txt)).body ≠
        .success props) := by
  constructor
  · intro h
    simp [handleProperties, h]
  · intro h
    simp [handleProperties, h]

/-- Witness for C7: an unset key never reaches the provider, and a 404
upstream reply surfaces as a 500 error carrying "404" and the body text. -/
theorem handleProperties_errors_witness :
    (handleProperties none "bargain" clock0 (.ok (.arr []))).upstreamCalled
      = false ∧
    handleProperties (some "k") "bargain" clock0 (.httpError 404 "not found") =
      { status := 500, body := .failure "Repliers API error: 404 - not found"
        upstreamCalled := true } := by
  refine ⟨((handleProperties_errors none "bargain" clock0 (.ok (.arr []))
    (.ok (.arr [])) 404 "not found").1 (by decide)).2.1, ?_⟩
  have h := ((handleProperties_errors (some "k") "bargain" clock0
    (.ok (.arr [])) (.ok (.arr [])) 404 "not found").2 (by decide)).1
  exact h.trans (by decide)

lemma jsOrStr_of_falsy {o : Option String} (h : truthyS o = false)
    (d : String) : jsOrStr o d = d := by
  rcases o with _ | s
  · rfl
  · simp [truthyS] at h
    simp [jsOrStr, h]

lemma jsOrStr_of_truthy {o : Option String} {s : String} (ho : o = some s)
    (hs : s ≠ "") (d : String) : jsOrStr o d = s := by
  subst ho
  simp [jsOrStr, hs]

lemma jsOrIntD_of_falsy {o : Option Int} (h : truthyN o = false)
    (d : Int) : jsOrIntD o d = d := by
  rcases o with _ | n
  · rfl
  · simp [truthyN] at h
    simp [jsOrIntD, h]

lemma jsOrIntD_of_truthy {o : Option Int} {n : Int} (ho : o = some n)
    (hn : n ≠ 0) (d : Int) : jsOrIntD o d = n := by
  subst ho
  simp [jsOrIntD, hn]

/-- C10: every formatted field is populated with a concrete default when the
source data is falsy — `mlsNumber` falls back from `mlsNumber` to `mls` to
`""`, `askingPrice` from `listPrice` to `price` to 0, `propertyType` from
`details.propertyType` to `type` to "Unknown", `thumbnail` from `images[0]`
to `""` — and `realtorCaLink` is always the realtor.ca prefix followed by the
(possibly empty) MLS number. -/
theorem formatProperty_defaults (c : Clock) (t : String) (p : RawListing) :
    ((formatProperty c t p).realtorCaLink =
      "https://www.realtor.ca/real-estate/" ++ (formatProperty c t p).mlsNumber) ∧
    (truthyS p.mlsNumber = false → truthyS p.mls = false →
      (formatProperty c t p).mlsNumber = "") ∧
    (truthyS p.mlsNumber = false → ∀ s, p.mls = some s → s ≠ "" →
      (formatProperty c t p).mlsNumber = s) ∧
    (truthyN p.listPrice = false → truthyN p.price = false →
      (formatProperty c t p).askingPrice = 0) ∧
    (truthyN p.listPrice = false → ∀ n, p.price = some n → n ≠ 0 →
      (formatProperty c t p).askingPrice = n) ∧
    (truthyS p.propertyType = false → truthyS p.type = false →
      (formatProperty c t p).propertyType = "Unknown") ∧
    (p.images = [] → (formatProperty c t p).thumbnail = "") := by
  refine ⟨rfl, ?_, ?_, ?_, ?_, ?_, ?_⟩
  · intro h1 h2
    simp [formatProperty, jsOrStr_of_falsy h1, jsOrStr_of_falsy h2]
  · intro h1 s hs hs0
    simp [formatProperty, jsOrStr_of_falsy h1, jsOrStr_of_truthy hs hs0]
  · intro h1 h2
    simp [formatProperty, jsOrIntD_of_falsy h1, jsOrIntD_of_falsy h2]
  · intro h1 n hn hn0
    simp [formatProperty, jsOrIntD_of_falsy h1, jsOrIntD_of_truthy hn hn0]
  · intro h1 h2
    simp [formatProperty, jsOrStr_of_falsy h1, jsOrStr_of_falsy h2]
  · intro h
    simp [formatProperty, h, jsOrStr]

/-- Witness for C10: the fully-absent listing formats to all defaults and
still gets the bare realtor.ca link. -/
theorem formatProperty_defaults_witness :
    (formatProperty clock0 "bargain" emptyRaw).mlsNumber = "" ∧
    (formatProperty clock0 "bargain" emptyRaw).askingPrice = 0 ∧
    (formatProperty clock0 "bargain" emptyRaw).propertyType = "Unknown" ∧
    (formatProperty clock0 "bargain" emptyRaw).thumbnail = "" ∧
    (formatProperty clock0 "bargain" emptyRaw).realtorCaLink =
      "https://www.realtor.ca/real-estate/" ++
        (formatProperty clock0 "bargain" emptyRaw).mlsNumber :=
  ⟨(formatProperty_defaults clock0 "bargain" emptyRaw).2.1 rfl rfl,
   (formatProperty_defaults clock0 "bargain" emptyRaw).2.2.2.1 rfl rfl,
   (formatProperty_defaults clock0 "bargain" emptyRaw).2.2.2.2.2.1 rfl rfl,
   (formatProperty_defaults clock0 "bargain" emptyRaw).2.2.2.2.2.2 rfl,
   (formatProperty_defaults clock0 "bargain" emptyRaw).1⟩

/-- C9: the client-side refinement keeps a listing iff it satisfies the
conjunction of all active filters: price at least the set minimum and at most
the set maximum (a listing whose `askingPrice` is the falsy 0 passes both
bounds), the chosen property type as a case-insensitive substring of
`propertyType`, and the chosen tag text as a case-insensitive substring of
some tag. -/
theorem applyFilters_spec (mn mx : Option Int) (ty tg : String)
    (props : List FormattedProperty) (p : FormattedProperty) :
    p ∈ applyFilters mn mx ty tg props ↔
      p ∈ props ∧
      (∀ min, mn = some min → p.askingPrice = 0 ∨ p.askingPrice ≥ min) ∧
      (∀ max, mx = some max → p.askingPrice = 0 ∨ p.askingPrice ≤ max) ∧
      (ty = "" ∨ containsSubstr (jsToLower p.propertyType) (jsToLower ty) = true) ∧
      (tg = "" ∨ ∃ t, t ∈ p.tags ∧
        containsSubstr (jsToLower t) (jsToLower tg) = true) := by
  unfold applyFilters
  rcases mn with _ | mn <;> rcases mx with _ | mx <;>
    by_cases hty : ty = "" <;> by_cases htg : tg = "" <;>
    simp [List.mem_filter, hty, htg, List.any_eq_true, and_assoc] <;>
    tauto

/-- A classified condo listing carrying one tag, for the C9 witness. -/
def sampleFormatted : FormattedProperty :=
  { mlsNumber := "X1", address := "12 Main, Toronto, ON"
    askingPrice := 500000, propertyType := "Condo", thumbnail := ""
    realtorCaLink := "https://www.realtor.ca/real-estate/X1"
    tags := ["long time no sold"] }

/-- Witness for C9: with all four filters active the condo listing passes. -/
theorem applyFilters_spec_witness :
    sampleFormatted ∈
      applyFilters (some 100000) (some 900000) "condo" "long"
        [sampleFormatted] :=
  (applyFilters_spec (some 100000) (some 900000) "condo" "long"
      [sampleFormatted] sampleFormatted).mpr
    (by
      refine ⟨by decide, fun min h => ?_, fun max h => ?_, ?_, ?_⟩
      · cases h; right; decide
      · cases h; right; decide
      · right; decide
      · exact Or.inr ⟨"long time no sold", by decide, by decide⟩)

/-- The components of an optional-string list that are present and nonempty,
in order. -/
def truthyParts (l : List (Option String)) : List String :=
  l.filterMap (fun o =>
    match o with
    | some s => if s = "" then none else some s
    | none => none)

lemma truthyParts_three (x y z : Option String) :
    truthyParts [x, y, z] =
    (if truthyS x then [jsOrStr x ""] else []) ++
    (if truthyS y then [jsOrStr y ""] else []) ++
    (if truthyS z then [jsOrStr z ""] else []) := by
  rcases x with _ | x <;> rcases y with _ | y <;> rcases z with _ | z <;>
    simp [truthyParts, truthyS, jsOrStr] <;>
    split_ifs <;> simp_all

/-- The address-formatting example from the spec:
`{streetNumber:"12", streetName:"Main", city:"Toronto", state:"ON"}`. -/
def exampleAddr : Address :=
  { streetNumber := some "12", streetName := some "Main"
    streetSuffix := none, unitNumber := none, city := some "Toronto"
    state := some "ON", zip := none }

/-- The listing wrapping `exampleAddr`. -/
def exampleAddressListing : RawListing :=
  { emptyRaw with address := some exampleAddr }

/-- C8: the address formatter joins the present (truthy) components
[streetNumber, streetName, streetSuffix, "Unit {unitNumber}"] with single
spaces into a street line, joins the present components among [street line,
city, state, zip] with ", ", returns the fixed placeholder when no component
is present at all (the address sub-record absent included), and formats the
spec's example to "12 Main, Toronto, ON". -/
theorem formatAddress_spec (p : RawListing) :
    (formatAddress p =
      match p.address with
      | none => "Address not available"
      | some addr =>
        let street := joinSep " "
          (truthyParts [addr.streetNumber, addr.streetName, addr.streetSuffix] ++
            (if truthyS addr.unitNumber then
              ["Unit " ++ jsOrStr addr.unitNumber ""] else []))
        let parts := (if street ≠ "" then [street] else []) ++
          truthyParts [addr.city, addr.state, addr.zip]
        let joined := joinSep ", " parts
        if joined ≠ "" then joined else "Address not available") ∧
    (p.address = none → formatAddress p = "Address not available") ∧
    (∀ addr, p.address = some addr →
      truthyS addr.streetNumber = false → truthyS addr.streetName = false →
      truthyS addr.streetSuffix = false → truthyS addr.unitNumber = false →
      truthyS addr.city = false → truthyS addr.state = false →
      truthyS addr.zip = false →
      formatAddress p = "Address not available") ∧
    formatAddress exampleAddressListing = "12 Main, Toronto, ON" := by
  refine ⟨?_, ?_, ?_, by decide⟩
  · rcases h : p.address with _ | addr
    · simp [formatAddress, h]
    · simp only [formatAddress, h, truthyParts_three, List.append_assoc]
  · intro h
    simp [formatAddress, h]
  · intro addr h h1 h2 h3 h4 h5 h6 h7
    simp [formatAddress, h, h1, h2, h3, h4, h5, h6, h7, joinSep]

/-- A listing whose address sub-record is present but entirely empty. -/
def emptyAddr : Address :=
  { streetNumber := none, streetName := none, streetSuffix := none
    unitNumber := none, city := none, state := none, zip := none }

/-- The listing wrapping `emptyAddr`. -/
def emptyAddressListing : RawListing :=
  { emptyRaw with address := some emptyAddr }

/-- Witness for C8: the present-but-empty address formats to the
placeholder. -/
theorem formatAddress_spec_witness :
    formatAddress emptyAddressListing = "Address not available" :=
  (formatAddress_spec emptyAddressListing).2.2.1 emptyAddr rfl rfl rfl rfl
    rfl rfl rfl rfl
